import Mathlib

/-!
Verification of `fastapi-control` (leynier/fastapi-control).

Shallow embedding of `src/fastapi_control/controller.py` and
`src/fastapi_control/di.py`. Handlers, classes and aliases are identified
by natural numbers; the injection container is explicit state. The
external container library (kink) is not part of this repository, so its
registration and default-lookup behavior is modelled from the spec where
needed; everything else is translated from the source.
-/

set_option autoImplicit false

namespace FastapiControl

/-! ## Route registrar: `APIControllerRouter.api_route` -/

/-- A single route registration performed on the underlying router:
the path, the `include_in_schema` flag passed down, and the handler. -/
structure Registration where
  path : String
  include_in_schema : Bool
  handler : Nat
deriving DecidableEq, Repr

/-- Python `s.endswith(suf)`: `suf` is a suffix of `s`. -/
def endswith (s suf : String) : Bool :=
  suf.data.isSuffixOf s.data

/-- The Python slice `s[:-n]`: all characters of `s` but the last `n`. -/
def dropLastChars (s : String) (n : Nat) : String :=
  ⟨s.data.take (s.data.length - n)⟩

/-- `path[:-1] if path.endswith("/") else path` from `api_route`. -/
def path_no_slash (path : String) : String :=
  if endswith path "/" then dropLastChars path 1 else path

/-- `APIControllerRouter.api_route` (controller.py lines 47-73): builds the
non-trailing-slash registration with the given `include_in_schema` and
the trailing-slash registration with `include_in_schema=False`; applying
the returned decorator to a handler performs the trailing-slash
registration first, then the bare one, except when the given path is
exactly `"/"`, where only the trailing-slash registration runs. The
result lists the registrations in the order they are added. -/
def api_route (path : String) (include_in_schema : Bool) (handler : Nat) :
    List Registration :=
  if path = "/" then
    [⟨path_no_slash path ++ "/", false, handler⟩]
  else
    [⟨path_no_slash path ++ "/", false, handler⟩,
     ⟨path_no_slash path, include_in_schema, handler⟩]

/-! ## Tag defaulting in the `controller` decorator -/

/-- Tag-defaulting step of the `controller` decorator (controller.py lines
236-240): when the router has no tags, the class name, with a trailing
`"Controller"` (10 characters, `tag[:-10]`) stripped when present, is
appended as the sole tag; otherwise the tags are left alone. -/
def controller_tags (tags : List String) (clsName : String) : List String :=
  if tags = [] then
    tags ++ [if endswith clsName "Controller" then dropLastChars clsName 10
             else clsName]
  else tags

/-! ## Claims about the route registrar -/

/-- Stripping the root path and re-appending the slash gives back `"/"`. -/
theorem path_no_slash_root : path_no_slash "/" ++ "/" = "/" := by decide

/-- C1: for a declared path other than `"/"`, `api_route` registers the
same handler twice: the path with a single trailing slash stripped plus
`"/"`, always with `include_in_schema = false`, and the stripped path
itself with the `include_in_schema` flag given by the caller. -/
theorem api_route_nonroot_dual (path : String) (inc : Bool) (f : Nat)
    (h : path ≠ "/") :
    api_route path inc f =
      [⟨path_no_slash path ++ "/", false, f⟩,
       ⟨path_no_slash path, inc, f⟩] := by
  simp [api_route, h]

/-- Witness for C1 at the concrete declared path `"/users/"`. -/
theorem api_route_nonroot_dual_witness :
    api_route "/users/" true 7 =
      [⟨path_no_slash "/users/" ++ "/", false, 7⟩,
       ⟨path_no_slash "/users/", true, 7⟩] :=
  api_route_nonroot_dual "/users/" true 7 (by decide)

/-- C5: when the declared path is exactly `"/"`, the decorator performs a
single registration, under `"/"`, and no bare-path duplicate exists. -/
theorem api_route_root_single (inc : Bool) (f : Nat) :
    api_route "/" inc f = [⟨"/", false, f⟩] := by
  simp [api_route, path_no_slash_root]

/-- C10: for the declared path `"/"` the single registration carries
`include_in_schema = false` no matter what flag the caller passed: the
result is independent of the given flag and its schema flags are all
`false`. -/
theorem api_route_root_hidden (inc : Bool) (f : Nat) :
    (api_route "/" inc f).map Registration.include_in_schema = [false]
      ∧ api_route "/" inc f = api_route "/" true f := by
  constructor
  · simp [api_route, path_no_slash_root]
  · simp [api_route]

/-- C6: with no tags supplied the routing group ends decoration with
exactly one tag, the class name with a trailing `"Controller"` stripped
when present (`UsersController` becomes `Users`); with tags supplied,
nothing is added. -/
theorem controller_tags_default (name t : String) (ts : List String) :
    controller_tags [] name =
      [if endswith name "Controller" then dropLastChars name 10 else name]
      ∧ (controller_tags [] name).length = 1
      ∧ controller_tags [] "UsersController" = ["Users"]
      ∧ controller_tags (t :: ts) name = t :: ts := by
  refine ⟨by simp [controller_tags], by simp [controller_tags], ?_, ?_⟩
  · decide
  · simp [controller_tags]

/-! ## Injection adapter: `di.py` over an explicit container state

Python classes, abstract aliases and container keys are identified by
natural numbers. A constructed instance records which class
constructor produced it and a serial number drawn from a global
construction counter, so that "a fresh instance on every resolution" is
the statement that successive resolutions carry distinct serials. -/

/-- An instance built by the container: the class constructed and the
value of the construction counter at the moment of construction. -/
structure Instance where
  cls : Nat
  serial : Nat
deriving DecidableEq, Repr

/-- First value bound to a key in an association list. -/
def lookupA {α : Type} : List (Nat × α) → Nat → Option α
  | [], _ => none
  | (k, v) :: t, key => if k = key then some v else lookupA t key

/-- State of the process-wide injection container `_di`. `factories` and
`services` map a key to the class whose constructor the stored rule
invokes; `memo` caches resolved plain services; `aliases` maps an alias
key to its list of concrete target keys; `counter` counts constructor
invocations. -/
structure DIState where
  factories : List (Nat × Nat)
  services : List (Nat × Nat)
  memo : List (Nat × Instance)
  aliases : List (Nat × List Nat)
  counter : Nat
deriving DecidableEq, Repr

/-- The empty container state. -/
def emptyDI : DIState := ⟨[], [], [], [], 0⟩

/-- Modelled from the spec: the default lookup of the external container
library,
`Container.__getitem__`. A key with a `use_factory` registration is
rebuilt afresh on every hit; a memoized service is returned from cache; a
plain service is built once and memoized; a key found only in the alias
table is resolved through the construction rule of its first target and
the result is memoized under the looked-up key — the default behavior
ties caching to whichever key is used, which is the deficiency the
custom container of the adapter exists to override. -/
def containerGetItem (s : DIState) (key : Nat) : Option Instance × DIState :=
  match lookupA s.factories key with
  | some c => (some ⟨c, s.counter⟩, {s with counter := s.counter + 1})
  | none =>
    match lookupA s.memo key with
    | some i => (some i, s)
    | none =>
      match lookupA s.services key with
      | some c =>
        (some ⟨c, s.counter⟩,
         {s with counter := s.counter + 1,
                 memo := (key, ⟨c, s.counter⟩) :: s.memo})
      | none =>
        match lookupA s.aliases key with
        | some (t :: _) =>
          match (lookupA s.factories t).orElse (fun _ => lookupA s.services t) with
          | some c =>
            (some ⟨c, s.counter⟩,
             {s with counter := s.counter + 1,
                     memo := (key, ⟨c, s.counter⟩) :: s.memo})
          | none => (none, s)
        | _ => (none, s)

/-- `_Container.__getitem__` (di.py lines 20-24): a key present in the
alias table is replaced by the first of its aliased concrete keys before
the base lookup runs, so aliased and direct lookups reach the same rule. -/
def containerGetItemOverride (s : DIState) (key : Nat) :
    Option Instance × DIState :=
  match lookupA s.aliases key with
  | some (k0 :: _) => containerGetItem s k0
  | _ => containerGetItem s key

/-- `inject` (di.py lines 30-39). The underlying registration call is
modelled from the spec: with `use_factory` set, the construction rule of
the class is stored in `factories` keyed by the class itself, and a
supplied alias key gains the class at the end of its target list. Registration
is lazy: it stores the rule without invoking the constructor. -/
def injectRegister (aliasKey : Option Nat) (cls : Nat) (s : DIState) : DIState :=
  let s1 : DIState := {s with factories := (cls, cls) :: s.factories}
  match aliasKey with
  | none => s1
  | some a =>
    {s1 with aliases := (a, ((lookupA s1.aliases a).getD []) ++ [cls]) :: s1.aliases}

/-- A zero-argument Python callable that may construct instances:
explicit passing of the container state. -/
def Callable0 (α : Type) : Type := DIState → α × DIState

/-- `factory` (di.py lines 42-43): `lambda: f()` — a fresh thunk whose
invocation calls `f` with no arguments; building the thunk itself touches
no state. -/
def factory {α : Type} (f : Callable0 α) : Callable0 α :=
  fun s => f s

/-- `instantiate` (di.py lines 46-47): `f()` — resolve immediately in the
current state. -/
def instantiate {α : Type} (f : Callable0 α) (s : DIState) : α × DIState :=
  f s

/-- Resolution of a key through the adapter container, as a callable. -/
def resolveKey (key : Nat) : Callable0 (Option Instance) :=
  fun s => containerGetItemOverride s key

/-! ## Controller binder: `_fix_endpoint_signature` and `_controller` -/

/-- `inspect.Parameter.kind` values. -/
inductive ParamKind where
  | positionalOnly
  | positionalOrKeyword
  | varPositional
  | keywordOnly
  | varKeyword
deriving DecidableEq, Repr

/-- A declared parameter default: absent, a `Depends(factory(cls))`
marker, or some other plain default value. -/
inductive ParamDefault where
  | empty
  | dependsFactory (cls : Nat)
  | value (v : Nat)
deriving DecidableEq, Repr

/-- One entry of a declared method signature. -/
structure Param where
  name : String
  kind : ParamKind
  annotation : Nat
  default : ParamDefault
deriving DecidableEq, Repr

/-- `_fix_endpoint_signature` (controller.py lines 275-305): the first
declared parameter is replaced by a copy whose default is
`Depends(factory(cls))`; every later parameter is replaced by a copy
whose kind is `KEYWORD_ONLY`; with no declared parameters at all,
`old_parameters[0]` raises `IndexError`, modelled as `none`. -/
def fix_endpoint_signature (cls : Nat) : List Param → Option (List Param)
  | [] => none
  | p0 :: rest =>
    some ({p0 with default := ParamDefault.dependsFactory cls} ::
          rest.map (fun p => {p with kind := ParamKind.keywordOnly}))

/-- An endpoint descriptor together with the declared parameters of the
method carrying it. `args` stands for the `RouteArgs` dataclass stored
under the endpoint key: it is created at decoration time and passed
through to `add_api_route` verbatim, so it is kept opaque here. -/
structure Endpoint where
  params : List Param
  args : Nat
deriving DecidableEq, Repr

/-- A route recorded on the routing group: the rewritten signature and
the descriptor options it was registered with. -/
structure BoundRoute where
  params : List Param
  args : Nat
deriving DecidableEq, Repr

/-- The loop body of `_controller` (controller.py lines 264-268): each
endpoint has its signature rewritten in place and the rewritten method is
added to the router with exactly the options stored in its descriptor; a
method with no declared parameters raises at this point. -/
def registerEndpoints (cls : Nat) :
    List Endpoint → List BoundRoute → Except String (List BoundRoute)
  | [], routes => Except.ok routes
  | e :: es, routes =>
    match fix_endpoint_signature cls e.params with
    | none => Except.error "IndexError: tagged method declares no parameters"
    | some ps => registerEndpoints cls es (routes ++ [⟨ps, e.args⟩])

/-- `_controller` (controller.py lines 247-272): wrap the class through
`inject()`, rewrite and register every endpoint, then append the class to
the process-wide `__controllers__` registry. Returns the routes recorded
on the router, the registry and the container state. -/
def _controller (cls : Nat) (eps : List Endpoint) (routes : List BoundRoute)
    (registry : List Nat) (s : DIState) :
    Except String (List BoundRoute × List Nat × DIState) :=
  let s1 := injectRegister none cls s
  match registerEndpoints cls eps routes with
  | Except.error m => Except.error m
  | Except.ok routes1 => Except.ok (routes1, registry ++ [cls], s1)

/-- `add_controllers` (controller.py lines 338-365): include every
registered controller router on the application, one `include_router`
call per registry entry, in registry order. The application is its list
of attached routers, identified by the owning class. -/
def add_controllers (registry : List Nat) (app : List Nat) : List Nat :=
  registry.foldl (fun acc c => acc ++ [c]) app

/-! ## Claims about the injection adapter -/

/-- C2: `inject()` (with or without an alias) registers the class lazily
(registration invokes no constructor: the counter is untouched) and
without caching: two successive resolutions of the class each construct
afresh and return distinct instances, and likewise after registration
under an alias. -/
theorem inject_transient (cls a : Nat) (s : DIState)
    (h : lookupA s.aliases cls = none) (hne : a ≠ cls) :
    (injectRegister none cls s).counter = s.counter
    ∧ (containerGetItemOverride (injectRegister none cls s) cls).1
        = some ⟨cls, s.counter⟩
    ∧ (containerGetItemOverride
         (containerGetItemOverride (injectRegister none cls s) cls).2 cls).1
        = some ⟨cls, s.counter + 1⟩
    ∧ (containerGetItemOverride (injectRegister none cls s) cls).1
        ≠ (containerGetItemOverride
            (containerGetItemOverride (injectRegister none cls s) cls).2 cls).1
    ∧ (injectRegister (some a) cls s).counter = s.counter
    ∧ (containerGetItemOverride (injectRegister (some a) cls s) cls).1
        = some ⟨cls, s.counter⟩
    ∧ (containerGetItemOverride
         (containerGetItemOverride (injectRegister (some a) cls s) cls).2 cls).1
        = some ⟨cls, s.counter + 1⟩ := by
  simp [injectRegister, containerGetItemOverride, containerGetItem, lookupA,
        h, hne]

/-- Witness for C2: registering class `1` (alias `0`) in the empty
container. -/
theorem inject_transient_witness :
    (injectRegister none 1 emptyDI).counter = emptyDI.counter
    ∧ (containerGetItemOverride (injectRegister none 1 emptyDI) 1).1
        = some ⟨1, emptyDI.counter⟩
    ∧ (containerGetItemOverride
         (containerGetItemOverride (injectRegister none 1 emptyDI) 1).2 1).1
        = some ⟨1, emptyDI.counter + 1⟩
    ∧ (containerGetItemOverride (injectRegister none 1 emptyDI) 1).1
        ≠ (containerGetItemOverride
            (containerGetItemOverride (injectRegister none 1 emptyDI) 1).2 1).1
    ∧ (injectRegister (some 0) 1 emptyDI).counter = emptyDI.counter
    ∧ (containerGetItemOverride (injectRegister (some 0) 1 emptyDI) 1).1
        = some ⟨1, emptyDI.counter⟩
    ∧ (containerGetItemOverride
         (containerGetItemOverride (injectRegister (some 0) 1 emptyDI) 1).2 1).1
        = some ⟨1, emptyDI.counter + 1⟩ :=
  inject_transient 1 0 emptyDI rfl (by decide)

/-- C3: after `inject(alias=a)` on class `cls`, the custom container
redirects the alias to the first aliased concrete key before looking up,
so resolving by the alias and by the class behave identically, and both
are non-cached: a second alias resolution constructs afresh again. -/
theorem inject_alias_unified (a cls : Nat) (s : DIState)
    (ha : lookupA s.aliases a = none) (hc : lookupA s.aliases cls = none)
    (hne : a ≠ cls) :
    containerGetItemOverride (injectRegister (some a) cls s) a
      = containerGetItemOverride (injectRegister (some a) cls s) cls
    ∧ (containerGetItemOverride (injectRegister (some a) cls s) a).1
        = some ⟨cls, s.counter⟩
    ∧ (containerGetItemOverride
         (containerGetItemOverride (injectRegister (some a) cls s) a).2 a).1
        = some ⟨cls, s.counter + 1⟩ := by
  simp [injectRegister, containerGetItemOverride, containerGetItem, lookupA,
        ha, hc, hne]

/-- Witness for C3: alias `0` for class `1` in the empty container. -/
theorem inject_alias_unified_witness :
    containerGetItemOverride (injectRegister (some 0) 1 emptyDI) 0
      = containerGetItemOverride (injectRegister (some 0) 1 emptyDI) 1
    ∧ (containerGetItemOverride (injectRegister (some 0) 1 emptyDI) 0).1
        = some ⟨1, emptyDI.counter⟩
    ∧ (containerGetItemOverride
         (containerGetItemOverride (injectRegister (some 0) 1 emptyDI) 0).2 0).1
        = some ⟨1, emptyDI.counter + 1⟩ :=
  inject_alias_unified 0 1 emptyDI rfl rfl (by decide)

/-- C9: `factory f` is a thunk that, when invoked, performs exactly the
call `f()`, agreeing pointwise with `instantiate f`; because the thunk
reads the container state only at call time, a factory built for a key
resolves against whatever state holds when it is finally invoked. -/
theorem factory_defers_instantiate {α : Type} (f : Callable0 α) (cls : Nat)
    (s : DIState) :
    factory f s = instantiate f s
    ∧ factory f s = f s
    ∧ factory (resolveKey cls) (injectRegister none cls s)
        = containerGetItemOverride (injectRegister none cls s) cls :=
  ⟨rfl, rfl, rfl⟩

/-! ## Claims about the controller binder and composition -/

/-- C4: rewriting a nonempty declared signature succeeds, preserves the
parameter count, replaces the first parameter with a copy (same name,
kind and annotation) whose default is `Depends(factory(cls))`, turns
every remaining parameter keyword-only while keeping its name, default
and annotation, and the rewritten method is registered with exactly the
options stored in its endpoint descriptor. -/
theorem fix_endpoint_signature_spec (cls : Nat) (p0 : Param)
    (rest : List Param) (args : Nat) (routes : List BoundRoute) :
    ∃ qs, fix_endpoint_signature cls (p0 :: rest) = some qs
      ∧ qs.length = (p0 :: rest).length
      ∧ qs.head? = some {p0 with default := ParamDefault.dependsFactory cls}
      ∧ qs.tail.map Param.name = rest.map Param.name
      ∧ qs.tail.map Param.default = rest.map Param.default
      ∧ qs.tail.map Param.annotation = rest.map Param.annotation
      ∧ qs.tail.map Param.kind = rest.map (fun _ => ParamKind.keywordOnly)
      ∧ registerEndpoints cls [⟨p0 :: rest, args⟩] routes
          = Except.ok (routes ++ [⟨qs, args⟩]) := by
  refine ⟨_, rfl, by simp, rfl, ?_, ?_, ?_, ?_, rfl⟩
  all_goals
    rw [List.tail_cons, List.map_map]
    exact List.map_congr_left (fun p _ => rfl)

/-- Lemma for C7: a list of endpoints containing a method with no
declared parameters always makes the registration loop raise. -/
theorem registerEndpoints_error (cls : Nat) (args : Nat)
    (eps2 : List Endpoint) :
    ∀ (eps1 : List Endpoint) (routes : List BoundRoute),
      ∃ msg, registerEndpoints cls (eps1 ++ Endpoint.mk [] args :: eps2) routes
          = Except.error msg := by
  intro eps1
  induction eps1 with
  | nil => exact fun routes => ⟨_, rfl⟩
  | cons e es ih =>
    intro routes
    cases hp : e.params with
    | nil =>
      exact ⟨"IndexError: tagged method declares no parameters",
             by simp [registerEndpoints, fix_endpoint_signature, hp]⟩
    | cons p ps =>
      obtain ⟨m, hm⟩ := ih (routes ++
        [⟨{p with default := ParamDefault.dependsFactory cls} ::
           ps.map (fun q => {q with kind := ParamKind.keywordOnly}), e.args⟩])
      exact ⟨m, by simp [registerEndpoints, fix_endpoint_signature, hp, hm]⟩

/-- C7: if any method carrying an endpoint descriptor declares no
parameters at all, the class decoration itself fails: `_controller`
deterministically returns the decoration-time error, whatever else the
class declares. -/
theorem controller_no_params_error (cls : Nat) (args : Nat)
    (eps1 eps2 : List Endpoint) (routes : List BoundRoute)
    (registry : List Nat) (s : DIState) :
    ∃ msg, _controller cls (eps1 ++ Endpoint.mk [] args :: eps2)
        routes registry s = Except.error msg := by
  obtain ⟨m, hm⟩ := registerEndpoints_error cls args eps2 eps1 routes
  exact ⟨m, by simp [_controller, hm]⟩

/-- Lemma for C8: attaching the registry folds out to appending it. -/
theorem add_controllers_eq_append (registry : List Nat) :
    ∀ app, add_controllers registry app = app ++ registry := by
  induction registry with
  | nil => intro app; simp [add_controllers]
  | cons c cs ih =>
    intro app
    show add_controllers cs (app ++ [c]) = app ++ c :: cs
    rw [ih (app ++ [c])]
    simp

/-- C8: `add_controllers` attaches every registered controller in
registry insertion order; a second call performs a second full attach,
duplicating the routes; and a successful `_controller` decoration appends
the class to the registry exactly once. -/
theorem add_controllers_order (registry app : List Nat) (cls : Nat)
    (eps : List Endpoint) (routes routes1 : List BoundRoute)
    (reg0 : List Nat) (s : DIState)
    (h : registerEndpoints cls eps routes = Except.ok routes1) :
    add_controllers registry app = app ++ registry
    ∧ add_controllers registry (add_controllers registry app)
        = app ++ registry ++ registry
    ∧ _controller cls eps routes reg0 s
        = Except.ok (routes1, reg0 ++ [cls], injectRegister none cls s) := by
  refine ⟨add_controllers_eq_append registry app, ?_, ?_⟩
  · rw [add_controllers_eq_append, add_controllers_eq_append]
  · simp [_controller, h]

/-- Witness for C8: one registered controller, an endpoint-free class. -/
theorem add_controllers_order_witness :
    add_controllers [5] [] = [] ++ [5]
    ∧ add_controllers [5] (add_controllers [5] []) = [] ++ [5] ++ [5]
    ∧ _controller 0 [] [] [] emptyDI
        = Except.ok ([], [] ++ [0], injectRegister none 0 emptyDI) :=
  add_controllers_order [5] [] 0 [] [] [] [] emptyDI rfl

end FastapiControl
